import Mathlib

/-!
Verification of the finance-tracker CSV store (`src/main.py`, class `CSVManager`).

The program keeps all state in two external CSV files: the Record Store
(`finance_data.csv`) and the Backup Store (`finance_data_backup.csv`).
We embed a file as a list of records, each record a list of raw textual
fields (the header record first).  Working at the field level rather than
the byte level loses only CSV quoting details; every divergence exhibited
below already shows up at the field level, hence also at the byte level.

The pandas operations the program relies on (`read_csv`, `to_csv`,
`to_datetime`, `to_numeric`) are modelled to the extent the program
exercises them: `read_csv` fails on an empty file and on a record longer
than the header (pandas `EmptyDataError` / `ParserError`) and pads short
records with NA; `to_csv` re-renders each cell according to the inferred
dtype of its column (int64 / float64 / object), which is exactly why a
backup produced by `_create_backup` is a parse/reserialize normalization
of the source file rather than a byte copy.  Floats are restricted to
exact decimals `m * 10^-e`; for the decimal strings the program
manipulates this matches float64 round-tripping.
-/

namespace FinTrack

/-- A persisted CSV file: header record followed by data records, each a
list of raw fields. -/
abbrev File := List (List String)

/-- True when the list is a nonempty run of ASCII digits. -/
def allDigits (l : List Char) : Bool := !l.isEmpty && l.all Char.isDigit

/-- Numeric value of a digit string. -/
def natOfDigits (l : List Char) : Nat := l.foldl (fun a c => a * 10 + (c.toNat - 48)) 0

/-- Split a character list at every occurrence of `sep` (like Python `str.split`). -/
def splitChar (sep : Char) : List Char → List (List Char)
  | [] => [[]]
  | c :: cs =>
    match splitChar sep cs with
    | [] => [[]]
    | g :: gs => if c = sep then [] :: g :: gs else (c :: g) :: gs

/-- Integer literal recognition, as used by pandas dtype inference and
`pd.to_numeric`: optional minus sign followed by digits. -/
def parseIntStr (s : String) : Option Int :=
  match s.toList with
  | '-' :: rest => if allDigits rest then some (-(natOfDigits rest : Int)) else none
  | l => if allDigits l then some (natOfDigits l : Int) else none

/-- Decimal float literal recognition: optional minus sign, digits, dot,
digits.  The value is returned as `(m, e)` meaning `m * 10^-e`,
unnormalized. -/
def parseFloatStr (s : String) : Option (Int × Nat) :=
  let p : Bool × List Char :=
    match s.toList with
    | '-' :: rest => (true, rest)
    | l => (false, l)
  match splitChar '.' p.2 with
  | [ip, fp] =>
    if allDigits ip && allDigits fp then
      let m : Int := (natOfDigits (ip ++ fp) : Int)
      some (if p.1 then -m else m, fp.length)
    else none
  | _ => none

/-- Strip trailing decimal zeros: float64 does not remember them, and the
shortest-repr printing used by pandas `to_csv` reproduces the stripped
form. -/
def stripZeros : Int → Nat → Int × Nat
  | m, 0 => (m, 0)
  | m, e + 1 => if m % 10 == 0 then stripZeros (m / 10) e else (m, e + 1)

/-- Render a normalized decimal `m * 10^-e` the way `repr` of a float64
prints it (always with a decimal point). -/
def renderFloat (m : Int) (e : Nat) : String :=
  if e == 0 then Int.repr m ++ ".0"
  else
    let ds := (Nat.repr m.natAbs).toList
    let padded := List.replicate (e + 1 - ds.length) '0' ++ ds
    let k := padded.length - e
    (if m < 0 then "-" else "") ++ String.mk (padded.take k) ++ "." ++ String.mk (padded.drop k)

/-- A cell as typed by pandas `read_csv`: missing, integer, float, or
plain string. -/
inductive Cell
  | na
  | intv (n : Int)
  | flt (m : Int) (e : Nat)
  | strv (s : String)
deriving DecidableEq, Repr

/-- How `read_csv` types one raw field: empty is NA, then integer, then
float, else string. -/
def parseCell (s : String) : Cell :=
  if s == "" then .na
  else
    match parseIntStr s with
    | some n => .intv n
    | none =>
      match parseFloatStr s with
      | some p => let q := stripZeros p.1 p.2; .flt q.1 q.2
      | none => .strv s

/-- Column dtypes relevant here. -/
inductive ColKind
  | int64
  | float64
  | object
deriving DecidableEq, Repr

/-- Dtype inference over the cells of one column: any string makes the
column object; all integers (and no NA) gives int64; otherwise float64
(NA forces float64, as in pandas). -/
def inferKind (cells : List Cell) : ColKind :=
  if cells.any (fun c => match c with | .strv _ => true | _ => false) then .object
  else if cells.all (fun c => match c with | .intv _ => true | _ => false) then .int64
  else .float64

/-- How `to_csv` writes one raw field back, given its column's dtype.
NA becomes the empty field; object columns keep the raw text; numeric
columns re-render the parsed value (int64 plainly, float64 with a
decimal point). -/
def renderCell (k : ColKind) (s : String) : String :=
  match k, parseCell s with
  | _, .na => ""
  | .object, _ => s
  | .int64, .intv n => Int.repr n
  | .float64, .intv n => Int.repr n ++ ".0"
  | _, .flt m e => renderFloat m e
  | _, _ => s

/-- An in-memory DataFrame: the header names and the data records, each
padded to the header's width. -/
structure Frame where
  header : List String
  rows : List (List String)
deriving DecidableEq, Repr

/-- Pad a record to `n` fields with NA (empty) fields, as `read_csv`
does for short records. -/
def padRow (r : List String) (n : Nat) : List String :=
  r ++ List.replicate (n - r.length) ""

/-- Model of `pd.read_csv`: fails on an empty file (EmptyDataError) and
on a record wider than the header (ParserError); pads short records. -/
def readCsv : File → Except Unit Frame
  | [] => .error ()
  | h :: rs =>
    if rs.any (fun r => h.length < r.length) then .error ()
    else .ok ⟨h, rs.map (fun r => padRow r h.length)⟩

/-- The cells of column `j` of the data records. -/
def colCells (rows : List (List String)) (j : Nat) : List Cell :=
  rows.map (fun r => parseCell (r.getD j ""))

/-- Inferred dtype of each column of a frame. -/
def kinds (fr : Frame) : List ColKind :=
  (List.range fr.header.length).map (fun j => inferKind (colCells fr.rows j))

/-- Model of `DataFrame.to_csv(..., index=False)`: the header as-is,
each record re-rendered cell by cell under its column's dtype. -/
def toCsv (fr : Frame) : File :=
  fr.header :: fr.rows.map (fun r => List.zipWith renderCell (kinds fr) r)

/-- The fixed schema `CSVManager.COLUMNS`. -/
def COLUMNS : List String := ["Date", "Amount", "Category", "Description"]

/-- Model of `datetime.strptime(s, "%d-%m-%Y")` / `pd.to_datetime` with
that format: day and month of one or two digits in range, a four-digit
year, calendar-valid day of month.  Returns `(year, month, day)`. -/
def parseDate (s : String) : Option (Nat × Nat × Nat) :=
  match splitChar '-' s.toList with
  | [ds, ms, ys] =>
    if allDigits ds && allDigits ms && allDigits ys
        && decide (ds.length ≤ 2) && decide (ms.length ≤ 2) && decide (ys.length = 4) then
      let d := natOfDigits ds
      let m := natOfDigits ms
      let y := natOfDigits ys
      let dim : Nat :=
        if m == 2 then (if (y % 4 == 0 && y % 100 != 0) || y % 400 == 0 then 29 else 28)
        else if m == 4 || m == 6 || m == 9 || m == 11 then 30
        else 31
      if decide (1 ≤ m) && decide (m ≤ 12) && decide (1 ≤ d) && decide (d ≤ dim) then
        some (y, m, d)
      else none
    else none
  | _ => none

/-- Order-preserving key for a parsed date (year has four digits, month
at most 12, day at most 31). -/
def dateKey (p : Nat × Nat × Nat) : Nat := p.1 * 10000 + p.2.1 * 100 + p.2.2

/-- A Date cell passes `pd.to_datetime`: either NA (becomes NaT, no
error) or a string matching the fixed format. -/
def dateOk (s : String) : Bool := s == "" || (parseDate s).isSome

/-- An Amount cell passes `pd.to_numeric`: NA or a numeric literal. -/
def amountOk (s : String) : Bool :=
  s == "" || (parseIntStr s).isSome || (parseFloatStr s).isSome

/-- The fields of column `name` (first matching header entry, as pandas
column selection does after name mangling of duplicates). -/
def colByName (fr : Frame) (name : String) : List String :=
  match fr.header.findIdx? (fun c => c == name) with
  | some j => fr.rows.map (fun r => r.getD j "")
  | none => []

/-- The validity check performed inside `_validate_datafile` (main.py
lines 26-32): the file reads, all fixed columns are present, every Date
parses under the fixed format, every Amount is numeric.  A missing file
fails (`read_csv` raises FileNotFoundError). -/
def checkValid : Option File → Bool
  | none => false
  | some f =>
    match readCsv f with
    | .error _ => false
    | .ok fr =>
      COLUMNS.all (fun c => fr.header.contains c)
      && (colByName fr "Date").all dateOk
      && (colByName fr "Amount").all amountOk

/-- Model of `CSVManager._validate_datafile` (main.py lines 23-39),
acting on the pair (Record Store, Backup Store) and returning the
success flag together with the resulting pair.  On failure with a
backup present, `os.replace(BACKUP_FILE, CSV_FILE)` moves (not copies)
the backup over the record store before the recursive call, so the
recursive call runs with no backup; this is what makes the Python
recursion terminate, and what makes this Lean definition total. -/
def validate_datafile (csv backup : Option File) : Bool × Option File × Option File :=
  if checkValid csv then (true, csv, backup)
  else
    match backup with
    | none => (false, csv, none)
    | some b => validate_datafile (some b) none
termination_by sizeOf backup
decreasing_by cases f <;> simp_arith

/-- The header-only file written by `initialize` when the store is
absent (`pd.DataFrame(columns=COLUMNS).to_csv`). -/
def headerOnly : File := [COLUMNS]

/-- Model of `CSVManager.initialize` (main.py lines 41-51): create a
header-only store when absent, otherwise validate (and possibly
restore). -/
def initStore (csv backup : Option File) : Bool × Option File × Option File :=
  match csv with
  | none => (true, some headerOnly, backup)
  | some f => validate_datafile (some f) backup

/-- One transaction as passed to `add_entry`; the four values are
written with `csv.DictWriter` in schema order, so we keep them as the
raw field texts they become. -/
structure Tx where
  date : String
  amount : String
  category : String
  description : String
deriving DecidableEq, Repr

/-- The CSV record `add_entry` appends for a transaction. -/
def rowOf (t : Tx) : List String := [t.date, t.amount, t.category, t.description]

/-- A transaction that is valid per the spec's data model: the date in
the fixed `dd-mm-yyyy` format and a numeric amount. -/
def goodTx (t : Tx) : Bool :=
  (parseDate t.date).isSome && ((parseIntStr t.amount).isSome || (parseFloatStr t.amount).isSome)

/-- External state seen by the Store Manager: the two files plus an
environment bit saying whether opening the Record Store for append will
succeed (models `OSError` on `open(..., "a")`). -/
structure FS where
  csv : Option File
  backup : Option File
  appendOk : Bool
deriving DecidableEq, Repr

/-- Model of `CSVManager._create_backup` (main.py lines 16-21): when the
Record Store exists it is read with `read_csv` and re-written with
`to_csv` to the Backup Store.  The read is NOT guarded by a try/except,
so a read failure is an exception (`Except.error`) escaping to the
caller. -/
def create_backup (fs : FS) : Except Unit FS :=
  match fs.csv with
  | none => .ok fs
  | some f =>
    match readCsv f with
    | .error e => .error e
    | .ok fr => .ok { fs with backup := some (toCsv fr) }

/-- Appending one record with `open(CSV_FILE, "a")` + `csv.DictWriter`:
creates the file (with no header) when absent. -/
def appendRow (csv : Option File) (t : Tx) : File :=
  match csv with
  | none => [rowOf t]
  | some f => f ++ [rowOf t]

/-- Model of `CSVManager.add_entry` (main.py lines 53-71): back up (an
exception here propagates, the call sits before the try block), then
append inside try/except, returning the success flag. -/
def add_entry (fs : FS) (t : Tx) : Except Unit (Bool × FS) :=
  match create_backup fs with
  | .error e => .error e
  | .ok fs1 =>
    if fs1.appendOk then .ok (true, { fs1 with csv := some (appendRow fs1.csv t) })
    else .ok (false, fs1)

/-- Iterated `add_entry`; an escaped exception aborts the run. -/
def addSeq (fs : FS) : List Tx → FS
  | [] => fs
  | t :: ts =>
    match add_entry fs t with
    | .ok p => addSeq p.2 ts
    | .error _ => fs

/-- What the backup becomes when `_create_backup` copies file `f`: its
parse/reserialize normalization. -/
def normalizeF (f : File) : File :=
  match readCsv f with
  | .ok fr => toCsv fr
  | .error _ => f

/-- Result of `get_transactions`: the rows of the returned DataFrame
(raw records of the store, in store order) and whether the except
branch reported an error. -/
structure QueryResult where
  rows : List (List String)
  errorReported : Bool
deriving DecidableEq, Repr

/-- Conditions under which `_display_transactions` runs without raising
on a nonempty frame: the Amount and Category columns exist and the
Amount column is numeric (otherwise the summary `sum()` / float
formatting raises, caught by `get_transactions`). -/
def displayOk (fr : Frame) (shown : List (List String)) : Bool :=
  shown.isEmpty ||
    (fr.header.contains "Category"
      && match fr.header.findIdx? (fun c => c == "Amount") with
         | some j => fr.rows.all (fun r => amountOk (r.getD j ""))
         | none => false)

/-- Model of `CSVManager.get_transactions` (main.py lines 100-119): read
the store, parse the Date column, optionally filter to the inclusive
range (only when BOTH bounds are given, per `if start_date and
end_date`), display, and return the (unsorted) DataFrame rows; any
exception yields an empty result with an error report. -/
def get_transactions (csv : Option File) (startD endD : Option String) : QueryResult :=
  match csv with
  | none => ⟨[], true⟩
  | some f =>
    match readCsv f with
    | .error _ => ⟨[], true⟩
    | .ok fr =>
      match fr.header.findIdx? (fun c => c == "Date") with
      | none => ⟨[], true⟩
      | some j =>
        if fr.rows.all (fun r => dateOk (r.getD j "")) then
          match startD, endD with
          | some s, some e =>
            match parseDate s, parseDate e with
            | some ps, some pe =>
              let shown := fr.rows.filter (fun r =>
                match parseDate (r.getD j "") with
                | some p => decide (dateKey ps ≤ dateKey p) && decide (dateKey p ≤ dateKey pe)
                | none => false)
              if displayOk fr shown then ⟨shown, false⟩ else ⟨[], true⟩
            | _, _ => ⟨[], true⟩
          | _, _ =>
            if displayOk fr fr.rows then ⟨fr.rows, false⟩ else ⟨[], true⟩
        else ⟨[], true⟩

/-- Sort key used by `sort_values("Date", ...)` once the Date column is
datetime-typed. -/
def sortKey (j : Nat) (r : List String) : Nat :=
  match parseDate (r.getD j "") with
  | some p => dateKey p
  | none => 0

/-- Insert into a descending-ordered list (by key). -/
def insDesc {α : Type} (k : α → Nat) (x : α) : List α → List α
  | [] => [x]
  | y :: ys => if k y < k x then x :: y :: ys else y :: insDesc k x ys

/-- Sort descending by key. -/
def sortDesc {α : Type} (k : α → Nat) (l : List α) : List α :=
  l.foldr (insDesc k) []

/-- The record sequence `_display_transactions` (main.py lines 73-97)
prints: the rows shown by `get_transactions`, sorted by descending date
(`df.sort_values("Date", ascending=False)` rebinds a local, so this
sorted sequence is displayed but never returned). -/
def displayedRows (csv : Option File) (startD endD : Option String) : List (List String) :=
  match csv with
  | none => []
  | some f =>
    match readCsv f with
    | .error _ => []
    | .ok fr =>
      match fr.header.findIdx? (fun c => c == "Date") with
      | none => []
      | some j => sortDesc (sortKey j) (get_transactions csv startD endD).rows

/-- A record conforming to the spec's data model in a four-column store:
exactly four fields (what `csv.DictWriter` writes), a Date that parses
or is empty, a numeric or empty Amount. -/
def goodRow (r : List String) : Bool :=
  decide (r.length = 4) && dateOk (r.getD 0 "") && amountOk (r.getD 1 "")

/-- A store in the shape this program itself creates: the exact fixed
header followed by conforming records.  (The code's `checkValid` also
accepts extra columns; the spec's data model fixes the schema.) -/
def goodStore (f : File) : Bool :=
  match f with
  | [] => false
  | h :: rows => decide (h = COLUMNS) && rows.all goodRow

/-! ### Example stores used by witnesses and counterexamples -/

/-- A store with a malformed date: readable as CSV, but invalid. -/
def exBad : File := [COLUMNS, ["99-99-9999", "10", "Income", "x"]]

/-- A valid one-row store. -/
def exGood : File := [COLUMNS, ["05-01-2024", "10", "Income", "x"]]

/-- A store whose date field is not even dash-and-digits shaped. -/
def exUnparsedDate : File := [COLUMNS, ["not-a-date", "1", "Income", "z"]]

/-- A valid store whose Amount field carries a trailing decimal zero, so
it is not fixed by the `read_csv`/`to_csv` round trip. -/
def exTrailingZero : File := [COLUMNS, ["05-01-2024", "100.50", "Income", "x"]]

/-- A valid store whose rows are in ascending date order. -/
def exAscending : File :=
  [COLUMNS, ["01-01-2024", "1", "Income", "a"], ["02-01-2024", "2", "Income", "b"]]

/-- A transaction used as concrete input. -/
def exTx : Tx := ⟨"06-01-2024", "20", "Expense", "y"⟩

/-! ### Unfolding lemmas for the repair loop -/

/-- A valid store validates in place. -/
lemma validate_valid {csv backup : Option File} (h : checkValid csv = true) :
    validate_datafile csv backup = (true, csv, backup) := by
  rw [validate_datafile.eq_def]
  simp [h]

/-- An invalid store with no backup fails terminally. -/
lemma validate_invalid_none {csv : Option File} (h : checkValid csv = false) :
    validate_datafile csv none = (false, csv, none) := by
  rw [validate_datafile.eq_def]
  simp [h]

/-- An invalid store with a backup restores (a move: the backup slot
empties) and re-validates once. -/
lemma validate_invalid_some {csv : Option File} {b : File} (h : checkValid csv = false) :
    validate_datafile csv (some b) = validate_datafile (some b) none := by
  rw [validate_datafile.eq_def]
  simp [h]

/-- The repair loop never leaves a backup behind when it starts with
none. -/
lemma validate_none_backup (csv : Option File) : (validate_datafile csv none).2.2 = none := by
  cases h : checkValid csv with
  | true => rw [validate_valid h]
  | false => rw [validate_invalid_none h]

/-- Whatever `add_entry` returns (when it returns), the backup slot
holds the `to_csv` re-rendering of the frame read from the record
store. -/
lemma addEntry_backup {fs : FS} {t : Tx} {f : File} {fr : Frame} {p : Bool × FS}
    (hc : fs.csv = some f) (hr : readCsv f = .ok fr) (he : add_entry fs t = .ok p) :
    p.2.backup = some (toCsv fr) := by
  obtain ⟨c, bk, ap⟩ := fs
  simp only [FS.csv] at hc
  subst hc
  simp only [add_entry, create_backup, hr] at he
  cases ap with
  | true => simp at he; cases he; rfl
  | false => simp at he; cases he; rfl

/-- C2: when both the Record Store and the Backup Store fail validation
(including when they are identical corrupt files), `_validate_datafile`
terminates and reports failure; the restore happens exactly once (the
backup is consumed), never indefinitely.  The Lean function is total,
so termination is part of the statement's well-formedness. -/
theorem c2_validate_both_corrupt_fails (csv : Option File) (b : File)
    (h1 : checkValid csv = false) (h2 : checkValid (some b) = false) :
    validate_datafile csv (some b) = (false, some b, none) ∧
    validate_datafile csv none = (false, csv, none) :=
  ⟨by rw [validate_invalid_some h1, validate_invalid_none h2],
   validate_invalid_none h1⟩

/-- Witness for C2: identical corrupt record store and backup. -/
theorem c2_witness :
    validate_datafile (some exBad) (some exBad) = (false, some exBad, none) ∧
    validate_datafile (some exBad) none = (false, some exBad, none) :=
  c2_validate_both_corrupt_fails (some exBad) exBad (by decide) (by decide)

/-- C3: a corrupt Record Store next to a valid Backup Store makes
`_validate_datafile` (and `initialize`, which delegates to it) replace
the Record Store with the backup (`os.replace`, hence byte-for-byte),
report success, and leave the Record Store equal to the former backup
contents. -/
theorem c3_restore_from_valid_backup (f b : File)
    (h1 : checkValid (some f) = false) (h2 : checkValid (some b) = true) :
    validate_datafile (some f) (some b) = (true, some b, none) ∧
    initStore (some f) (some b) = (true, some b, none) := by
  have hv : validate_datafile (some f) (some b) = (true, some b, none) := by
    rw [validate_invalid_some h1, validate_valid h2]
  exact ⟨hv, by simpa [initStore] using hv⟩

/-- Witness for C3: malformed date in the record store, valid backup. -/
theorem c3_witness :
    validate_datafile (some exBad) (some exGood) = (true, some exGood, none) ∧
    initStore (some exBad) (some exGood) = (true, some exGood, none) :=
  c3_restore_from_valid_backup exBad exGood (by decide) (by decide)

/-- C9 (amended): a backup produced by `add_entry` is the
parse/reserialize normalization of whatever the Record Store held at
the start of that add — not a byte-for-byte copy, and a snapshot of
that state whether or not it was valid. -/
theorem c9_backup_is_normalized_snapshot (fs : FS) (t : Tx) (f : File) (fr : Frame)
    (p : Bool × FS) (hc : fs.csv = some f) (hr : readCsv f = .ok fr)
    (he : add_entry fs t = .ok p) :
    p.2.backup = some (normalizeF f) := by
  rw [show normalizeF f = toCsv fr by simp [normalizeF, hr]]
  exact addEntry_backup hc hr he

/-- Witness for C9's amended statement. -/
theorem c9_witness :
    ((true, FS.mk (some (appendRow (some exGood) exTx)) (some (toCsv ⟨COLUMNS, [["05-01-2024", "10", "Income", "x"]]⟩)) true) : Bool × FS).2.backup
      = some (normalizeF exGood) :=
  c9_backup_is_normalized_snapshot ⟨some exGood, none, true⟩ exTx exGood
    ⟨COLUMNS, [["05-01-2024", "10", "Income", "x"]]⟩ _ rfl rfl rfl

/-- C9 counterexample: starting from a Record Store that is readable but
never valid, one `add_entry` leaves a Backup Store in place although no
earlier state of the Record Store was ever valid (both the pre-add and
post-add states fail validation, and the backup content itself fails
validation), so the backup is not a copy of any earlier valid state. -/
theorem c9_counterexample :
    checkValid (some exUnparsedDate) = false ∧
    add_entry ⟨some exUnparsedDate, none, true⟩ ⟨"07-01-2024", "2", "Expense", "w"⟩
      = .ok (true, ⟨some (exUnparsedDate ++ [["07-01-2024", "2", "Expense", "w"]]),
                    some exUnparsedDate, true⟩) ∧
    checkValid (some (exUnparsedDate ++ [["07-01-2024", "2", "Expense", "w"]])) = false :=
  ⟨by decide, rfl, by decide⟩

/-- C10: a restore moves the backup rather than copying it: right after
the restore step no backup exists; validation and initialization never
create a backup; the next `add_entry` is what recreates one (as the
`to_csv` snapshot of the store it read). -/
theorem c10_restore_moves_backup :
    (∀ (csv : Option File) (b : File), checkValid csv = false →
        (validate_datafile csv (some b)).2.2 = none) ∧
    (∀ csv : Option File, (validate_datafile csv none).2.2 = none) ∧
    (∀ csv : Option File, (initStore csv none).2.2 = none) ∧
    (∀ (fs : FS) (t : Tx) (f : File) (fr : Frame) (p : Bool × FS),
        fs.csv = some f → readCsv f = .ok fr → add_entry fs t = .ok p →
        p.2.backup = some (toCsv fr)) := by
  refine ⟨fun csv b h1 => ?_, validate_none_backup, fun csv => ?_,
          fun fs t f fr p hc hr he => addEntry_backup hc hr he⟩
  · rw [validate_invalid_some h1]
    exact validate_none_backup (some b)
  · cases csv with
    | none => rfl
    | some f => simpa [initStore] using validate_none_backup (some f)

/-- Witness for C10: the restore on a concrete corrupt store leaves no
backup. -/
theorem c10_witness : (validate_datafile (some exBad) (some exGood)).2.2 = none :=
  c10_restore_moves_backup.1 (some exBad) exGood (by decide)

/-- C4 counterexample: with an empty (zero-record) Record Store on disk,
`add_entry` raises out of `_create_backup` (`pd.read_csv` raises
`EmptyDataError` before the try block is entered), so an exception does
escape to the caller instead of a success/failure boolean. -/
theorem c4_counterexample :
    add_entry ⟨some ([] : File), none, true⟩ ⟨"05-01-2024", "10", "Income", "x"⟩
      = .error () := rfl

/-- C4 (amended): `add_entry` returns a success/failure boolean without
raising provided the Record Store is absent or readable as CSV at
backup time; only then is every error of the append itself caught and
converted to `false`.  A store that `read_csv` cannot parse makes the
unguarded `_create_backup` read raise out of `add_entry`. -/
theorem c4_add_entry_no_raise_when_readable (fs : FS) (t : Tx)
    (h : fs.csv = none ∨ ∃ f fr, fs.csv = some f ∧ readCsv f = .ok fr) :
    ∃ p, add_entry fs t = .ok p := by
  obtain ⟨c, bk, ap⟩ := fs
  rcases h with hc | ⟨f, fr, hc, hr⟩ <;> simp only [FS.csv] at hc <;> subst hc
  · cases ap <;> exact ⟨_, rfl⟩
  · simp only [add_entry, create_backup, hr]
    cases ap <;> exact ⟨_, rfl⟩

/-- Witness for C4's amended statement: a readable store. -/
theorem c4_witness :
    ∃ p, add_entry ⟨some exGood, none, true⟩ exTx = .ok p :=
  c4_add_entry_no_raise_when_readable ⟨some exGood, none, true⟩ exTx
    (Or.inr ⟨exGood, ⟨COLUMNS, [["05-01-2024", "10", "Income", "x"]]⟩, rfl, rfl⟩)

/-- C5 counterexample: when the append fails, the failure is reported
and the Record Store is unchanged, but the Backup Store is NOT: it was
already overwritten (with the snapshot of the current Record Store) at
the start of `add_entry`, before the append was attempted.  Here the
prior backup `[COLUMNS]` is replaced by a copy of the record store. -/
theorem c5_counterexample :
    add_entry ⟨some exGood, some ([COLUMNS] : File), false⟩ exTx
      = .ok (false, ⟨some exGood, some exGood, false⟩) ∧
    some exGood ≠ some ([COLUMNS] : File) :=
  ⟨rfl, by decide⟩

/-- C5 (amended): when the append to the Record Store fails, `add_entry`
reports failure and leaves the Record Store unchanged, but the Backup
Store has already been overwritten with the `to_csv` snapshot of the
current Record Store. -/
theorem c5_failed_append_keeps_store (fs : FS) (t : Tx) (f : File) (fr : Frame)
    (hc : fs.csv = some f) (hr : readCsv f = .ok fr) (ha : fs.appendOk = false) :
    add_entry fs t = .ok (false, { fs with backup := some (toCsv fr) }) := by
  obtain ⟨c, bk, ap⟩ := fs
  simp only [FS.csv] at hc
  simp only [FS.appendOk] at ha
  subst hc; subst ha
  simp [add_entry, create_backup, hr]

/-- Witness for C5's amended statement. -/
theorem c5_witness :
    add_entry ⟨some exGood, some ([COLUMNS] : File), false⟩ exTx
      = .ok (false, { FS.mk (some exGood) (some [COLUMNS]) false with
                      backup := some (toCsv ⟨COLUMNS, [["05-01-2024", "10", "Income", "x"]]⟩) }) :=
  c5_failed_append_keeps_store ⟨some exGood, some [COLUMNS], false⟩ exTx exGood
    ⟨COLUMNS, [["05-01-2024", "10", "Income", "x"]]⟩ rfl rfl rfl

/-! ### Reading and querying a store in schema shape -/

/-- Unpack the conjuncts of `goodRow`. -/
lemma goodRow_parts {r : List String} (h : goodRow r = true) :
    r.length = 4 ∧ dateOk (r.getD 0 "") = true ∧ amountOk (r.getD 1 "") = true := by
  simpa [goodRow, Bool.and_eq_true, decide_eq_true_eq, and_assoc] using h

/-- Padding a full-width record is the identity. -/
lemma padRow_self {r : List String} (h : r.length = 4) : padRow r 4 = r := by
  simp [padRow, h]

/-- A store in schema shape reads as the evident frame (no record is
wider than the header, every record already has full width). -/
lemma readCsv_good {rows : List (List String)} (h : ∀ r ∈ rows, goodRow r = true) :
    readCsv (COLUMNS :: rows) = .ok ⟨COLUMNS, rows⟩ := by
  have hlen : ∀ r ∈ rows, r.length = 4 := fun r hr => (goodRow_parts (h r hr)).1
  have hany : (rows.any fun r => decide (COLUMNS.length < r.length)) = false := by
    rw [List.any_eq_false]
    intro r hr
    simp [COLUMNS, hlen r hr]
  simp only [readCsv, hany, Bool.false_eq_true, if_false]
  have hpad : rows.map (fun r => padRow r COLUMNS.length) = rows := by
    rw [show rows.map (fun r => padRow r COLUMNS.length) = rows.map id from
          List.map_congr_left fun r hr => padRow_self (hlen r hr)]
    exact List.map_id rows
  rw [hpad]

/-- On a schema-shaped store, `_display_transactions` raises nothing:
the Category column exists and the Amount column is numeric. -/
lemma displayOk_good {rows shown : List (List String)} (h : ∀ r ∈ rows, goodRow r = true) :
    displayOk ⟨COLUMNS, rows⟩ shown = true := by
  have hidx : (COLUMNS.findIdx? fun c => c == "Amount") = some 1 := rfl
  simp only [displayOk, hidx, Bool.or_eq_true, Bool.and_eq_true, List.all_eq_true]
  right
  refine ⟨rfl, fun r hr => (goodRow_parts (h r hr)).2.2⟩

/-- All Date cells of a schema-shaped store pass `to_datetime`. -/
lemma datesOk_good {rows : List (List String)} (h : ∀ r ∈ rows, goodRow r = true) :
    (rows.all fun r => dateOk (r.getD 0 "")) = true := by
  rw [List.all_eq_true]
  exact fun r hr => (goodRow_parts (h r hr)).2.1

/-- `get_transactions` with no bounds on a schema-shaped store returns
all records in store order and reports no error. -/
lemma getTx_nobounds {rows : List (List String)} (h : ∀ r ∈ rows, goodRow r = true) :
    get_transactions (some (COLUMNS :: rows)) none none = ⟨rows, false⟩ := by
  have hidx : (COLUMNS.findIdx? fun c => c == "Date") = some 0 := rfl
  simp only [get_transactions, readCsv_good h, hidx, datesOk_good h, displayOk_good h,
    if_true]

/-- `get_transactions` with both bounds on a schema-shaped store filters
to the inclusive date range and reports no error. -/
lemma getTx_bounds {rows : List (List String)} {s e : String} {ps pe : Nat × Nat × Nat}
    (h : ∀ r ∈ rows, goodRow r = true)
    (hs : parseDate s = some ps) (he : parseDate e = some pe) :
    get_transactions (some (COLUMNS :: rows)) (some s) (some e) =
      ⟨rows.filter (fun r =>
          match parseDate (r.getD 0 "") with
          | some p => decide (dateKey ps ≤ dateKey p) && decide (dateKey p ≤ dateKey pe)
          | none => false), false⟩ := by
  have hidx : (COLUMNS.findIdx? fun c => c == "Date") = some 0 := rfl
  simp only [get_transactions, readCsv_good h, hidx, datesOk_good h, hs, he,
    displayOk_good h, if_true]

/-- C7: on a valid (schema-shaped) store, with both bounds in the fixed
format, `get_transactions(start, end)` returns exactly the records
whose date lies in the inclusive range — in particular an empty match
yields an empty result — and reports no error. -/
theorem c7_range_filter_inclusive (rows : List (List String)) (s e : String)
    (ps pe : Nat × Nat × Nat) (h : ∀ r ∈ rows, goodRow r = true)
    (hs : parseDate s = some ps) (he : parseDate e = some pe) :
    (get_transactions (some (COLUMNS :: rows)) (some s) (some e)).errorReported = false ∧
    ∀ r, r ∈ (get_transactions (some (COLUMNS :: rows)) (some s) (some e)).rows ↔
      r ∈ rows ∧ ∃ p, parseDate (r.getD 0 "") = some p ∧
        dateKey ps ≤ dateKey p ∧ dateKey p ≤ dateKey pe := by
  rw [getTx_bounds h hs he]
  refine ⟨rfl, fun r => ?_⟩
  rw [List.mem_filter]
  constructor
  · rintro ⟨hr, hcond⟩
    refine ⟨hr, ?_⟩
    cases hp : parseDate (r.getD 0 "") with
    | none => rw [hp] at hcond; exact absurd hcond (by simp)
    | some p =>
        rw [hp] at hcond
        simp only [Bool.and_eq_true, decide_eq_true_eq] at hcond
        exact ⟨p, rfl, hcond.1, hcond.2⟩
  · rintro ⟨hr, p, hp, h1, h2⟩
    refine ⟨hr, ?_⟩
    rw [hp]
    simp [h1, h2]

/-- Witness for C7: a two-row store queried with a range holding only
its first row. -/
theorem c7_witness :
    (get_transactions (some exAscending) (some "01-01-2024") (some "01-01-2024")).errorReported
        = false ∧
    ∀ r, r ∈ (get_transactions (some exAscending) (some "01-01-2024")
        (some "01-01-2024")).rows ↔
      r ∈ [["01-01-2024", "1", "Income", "a"], ["02-01-2024", "2", "Income", "b"]] ∧
        ∃ p, parseDate (r.getD 0 "") = some p ∧
          dateKey (2024, 1, 1) ≤ dateKey p ∧ dateKey p ≤ dateKey (2024, 1, 1) :=
  c7_range_filter_inclusive
    [["01-01-2024", "1", "Income", "a"], ["02-01-2024", "2", "Income", "b"]]
    "01-01-2024" "01-01-2024" (2024, 1, 1) (2024, 1, 1) (by decide) (by decide) (by decide)

/-- A valid transaction appends as a schema-shaped record. -/
lemma goodRow_rowOf {t : Tx} (ht : goodTx t = true) : goodRow (rowOf t) = true := by
  simp only [goodTx, Bool.and_eq_true, Bool.or_eq_true] at ht
  simp only [goodRow, rowOf, dateOk, amountOk, Bool.and_eq_true, Bool.or_eq_true,
    decide_eq_true_eq, List.getD_cons_zero, List.getD_cons_succ]
  tauto

/-- Appending a valid transaction preserves schema shape. -/
lemma good_append {rows : List (List String)} {t : Tx}
    (h : ∀ r ∈ rows, goodRow r = true) (ht : goodTx t = true) :
    ∀ r ∈ rows ++ [rowOf t], goodRow r = true := by
  intro r hr
  rcases List.mem_append.mp hr with hr' | hr'
  · exact h r hr'
  · rw [List.mem_singleton.mp hr']
    exact goodRow_rowOf ht

/-- A successful `add_entry` on a schema-shaped store: snapshot the
store into the backup (re-rendered by `to_csv`), then append the new
record. -/
lemma addEntry_good {rows : List (List String)} {b0 : Option File} {t : Tx}
    (h : ∀ r ∈ rows, goodRow r = true) :
    add_entry ⟨some (COLUMNS :: rows), b0, true⟩ t
      = .ok (true, ⟨some (COLUMNS :: (rows ++ [rowOf t])),
                    some (toCsv ⟨COLUMNS, rows⟩), true⟩) := by
  simp [add_entry, create_backup, readCsv_good h, appendRow]

/-- C6 (amended): adding a valid transaction to a valid store succeeds,
and a subsequent unbounded `get_transactions` contains the new record
exactly one more time than before the add (exactly once only when the
store did not already hold an identical record — duplicates are
permitted and are all returned). -/
theorem c6_add_then_get_count (rows : List (List String)) (b0 : Option File) (t : Tx)
    (h : ∀ r ∈ rows, goodRow r = true) (ht : goodTx t = true) :
    ∃ fs', add_entry ⟨some (COLUMNS :: rows), b0, true⟩ t = .ok (true, fs') ∧
      (get_transactions fs'.csv none none).rows.count (rowOf t)
        = (get_transactions (some (COLUMNS :: rows)) none none).rows.count (rowOf t) + 1 := by
  refine ⟨⟨some (COLUMNS :: (rows ++ [rowOf t])), some (toCsv ⟨COLUMNS, rows⟩), true⟩,
    addEntry_good h, ?_⟩
  rw [show (FS.mk (some (COLUMNS :: (rows ++ [rowOf t])))
        (some (toCsv ⟨COLUMNS, rows⟩)) true).csv = some (COLUMNS :: (rows ++ [rowOf t]))
      from rfl]
  rw [getTx_nobounds h, getTx_nobounds (good_append h ht)]
  simp [List.count_append]

/-- Witness for C6's amended statement. -/
theorem c6_witness :
    ∃ fs', add_entry ⟨some (COLUMNS :: [["05-01-2024", "10", "Income", "x"]]), none, true⟩
        exTx = .ok (true, fs') ∧
      (get_transactions fs'.csv none none).rows.count (rowOf exTx)
        = (get_transactions (some (COLUMNS :: [["05-01-2024", "10", "Income", "x"]]))
            none none).rows.count (rowOf exTx) + 1 :=
  c6_add_then_get_count [["05-01-2024", "10", "Income", "x"]] none exTx
    (by decide) (by decide)

/-- C6 counterexample: when the valid prior store already contains an
identical record, the result of `add_entry` followed by
`get_transactions()` contains the transaction twice, not exactly
once. -/
theorem c6_counterexample :
    goodStore exGood = true ∧ goodTx ⟨"05-01-2024", "10", "Income", "x"⟩ = true ∧
    add_entry ⟨some exGood, none, true⟩ ⟨"05-01-2024", "10", "Income", "x"⟩
      = .ok (true, ⟨some (exGood ++ [["05-01-2024", "10", "Income", "x"]]),
                    some exGood, true⟩) ∧
    (get_transactions (some (exGood ++ [["05-01-2024", "10", "Income", "x"]]))
        none none).rows.count ["05-01-2024", "10", "Income", "x"] = 2 :=
  ⟨by decide, by decide, rfl, by decide⟩

/-! ### The display sort -/

/-- Membership under descending insertion. -/
lemma mem_insDesc {α : Type} (k : α → Nat) (x : α) (l : List α) (z : α) :
    z ∈ insDesc k x l ↔ z = x ∨ z ∈ l := by
  induction l with
  | nil => simp [insDesc]
  | cons y ys ih =>
      by_cases hk : k y < k x
      · simp only [insDesc, if_pos hk, List.mem_cons]
      · simp only [insDesc, if_neg hk, List.mem_cons, ih]
        tauto

/-- Descending insertion preserves descending order. -/
lemma pairwise_insDesc {α : Type} (k : α → Nat) (x : α) (l : List α)
    (h : l.Pairwise (fun a b => k b ≤ k a)) :
    (insDesc k x l).Pairwise (fun a b => k b ≤ k a) := by
  induction l with
  | nil => simp [insDesc]
  | cons y ys ih =>
      rcases List.pairwise_cons.mp h with ⟨hy, hys⟩
      by_cases hk : k y < k x
      · rw [show insDesc k x (y :: ys) = x :: y :: ys by simp [insDesc, hk]]
        refine List.pairwise_cons.mpr ⟨?_, h⟩
        intro z hz
        rcases List.mem_cons.mp hz with rfl | hz'
        · exact Nat.le_of_lt hk
        · exact Nat.le_trans (hy z hz') (Nat.le_of_lt hk)
      · rw [show insDesc k x (y :: ys) = y :: insDesc k x ys by simp [insDesc, hk]]
        refine List.pairwise_cons.mpr ⟨?_, ih hys⟩
        intro z hz
        rcases (mem_insDesc k x ys z).mp hz with rfl | hz'
        · exact Nat.le_of_not_lt hk
        · exact hy z hz'

/-- The displayed sequence is in descending key order. -/
lemma pairwise_sortDesc {α : Type} (k : α → Nat) (l : List α) :
    (sortDesc k l).Pairwise (fun a b => k b ≤ k a) := by
  induction l with
  | nil => exact List.Pairwise.nil
  | cons x xs ih => exact pairwise_insDesc k x _ ih

/-- C1 (amended): on a valid store, the transaction table that
`get_transactions` DISPLAYS (via `_display_transactions`) is sorted by
descending date, with or without bounds; but the sequence it RETURNS is
not sorted: `sort_values` rebinds a local inside the display helper, so
the returned rows keep store order. -/
theorem c1_displayed_sorted_desc (rows : List (List String)) (sd ed : Option String)
    (h : ∀ r ∈ rows, goodRow r = true) :
    (displayedRows (some (COLUMNS :: rows)) sd ed).Pairwise
        (fun a b => sortKey 0 b ≤ sortKey 0 a) ∧
    (get_transactions (some (COLUMNS :: rows)) none none).rows = rows := by
  constructor
  · have hidx : (COLUMNS.findIdx? fun c => c == "Date") = some 0 := rfl
    simp only [displayedRows, readCsv_good h, hidx]
    exact pairwise_sortDesc _ _
  · rw [getTx_nobounds h]

/-- Witness for C1's amended statement. -/
theorem c1_witness :
    (displayedRows (some (COLUMNS :: [["01-01-2024", "1", "Income", "a"],
        ["02-01-2024", "2", "Income", "b"]])) none none).Pairwise
        (fun a b => sortKey 0 b ≤ sortKey 0 a) ∧
    (get_transactions (some (COLUMNS :: [["01-01-2024", "1", "Income", "a"],
        ["02-01-2024", "2", "Income", "b"]])) none none).rows
      = [["01-01-2024", "1", "Income", "a"], ["02-01-2024", "2", "Income", "b"]] :=
  c1_displayed_sorted_desc
    [["01-01-2024", "1", "Income", "a"], ["02-01-2024", "2", "Income", "b"]]
    none none (by decide)

/-- C1 counterexample: on a valid store whose rows are in ascending date
order (all dates parse), the sequence RETURNED by `get_transactions` is
those rows in store order — the first returned row's date is strictly
earlier than the second's, so the returned sequence is not sorted by
descending date.  (The displayed sequence is the reverse.) -/
theorem c1_counterexample :
    checkValid (some exAscending) = true ∧ goodStore exAscending = true ∧
    (get_transactions (some exAscending) none none).rows
      = [["01-01-2024", "1", "Income", "a"], ["02-01-2024", "2", "Income", "b"]] ∧
    sortKey 0 ["01-01-2024", "1", "Income", "a"]
      < sortKey 0 ["02-01-2024", "2", "Income", "b"] ∧
    displayedRows (some exAscending) none none
      = [["02-01-2024", "2", "Income", "b"], ["01-01-2024", "1", "Income", "a"]] :=
  ⟨by decide, by decide, rfl, by decide, rfl⟩

/-- C8 (amended): over any sequence of successful appends from a valid
store, the backup is overwritten at the start of every add, before the
new record is written, and after the n-th append it holds the
parse/reserialize NORMALIZATION of the Record Store as of the (n−1)-th
append (the pre-append state for the first append): the backup lags the
Record Store by exactly one write up to `to_csv` re-rendering, with
literal equality only for states fixed by that re-rendering. -/
theorem c8_backup_lags_one_write (rows : List (List String)) (b0 : Option File)
    (ts : List Tx) (t : Tx)
    (h : ∀ r ∈ rows, goodRow r = true) (ht : goodTx t = true)
    (hts : ∀ u ∈ ts, goodTx u = true) :
    ∃ g, (addSeq ⟨some (COLUMNS :: rows), b0, true⟩ ts).csv = some g ∧
      addSeq ⟨some (COLUMNS :: rows), b0, true⟩ (ts ++ [t])
        = ⟨some (g ++ [rowOf t]), some (normalizeF g), true⟩ := by
  revert hts
  induction ts generalizing rows b0 with
  | nil =>
      intro _
      refine ⟨COLUMNS :: rows, rfl, ?_⟩
      simp [addSeq, addEntry_good h, normalizeF, readCsv_good h]
  | cons u us ih =>
      intro hts
      have hu : goodTx u = true := hts u (List.mem_cons_self u us)
      have hus : ∀ v ∈ us, goodTx v = true := fun v hv => hts v (List.mem_cons_of_mem u hv)
      have hstep : ∀ l, addSeq ⟨some (COLUMNS :: rows), b0, true⟩ (u :: l)
          = addSeq ⟨some (COLUMNS :: (rows ++ [rowOf u])),
                    some (toCsv ⟨COLUMNS, rows⟩), true⟩ l := by
        intro l
        simp [addSeq, addEntry_good h]
      rw [List.cons_append, hstep, hstep]
      exact ih (rows ++ [rowOf u]) (some (toCsv ⟨COLUMNS, rows⟩)) (good_append h hu) hus

/-- Witness for C8's amended statement: a single append (n = 1). -/
theorem c8_witness :
    ∃ g, (addSeq ⟨some (COLUMNS :: [["05-01-2024", "10", "Income", "x"]]), none, true⟩
            []).csv = some g ∧
      addSeq ⟨some (COLUMNS :: [["05-01-2024", "10", "Income", "x"]]), none, true⟩
          ([] ++ [exTx])
        = ⟨some (g ++ [rowOf exTx]), some (normalizeF g), true⟩ :=
  c8_backup_lags_one_write [["05-01-2024", "10", "Income", "x"]] none [] exTx
    (by decide) (by decide) (by simp)

/-- C8 counterexample: a valid store whose Amount field carries a
trailing decimal zero.  After the first (successful) append the Backup
Store holds `100.5` where the pre-append Record Store held `100.50`:
the backup is the float64 re-rendering of the pre-append state, not
that state itself, so the claimed equality fails. -/
theorem c8_counterexample :
    checkValid (some exTrailingZero) = true ∧ goodStore exTrailingZero = true ∧
    (addSeq ⟨some exTrailingZero, none, true⟩ [exTx]).backup
      = some [COLUMNS, ["05-01-2024", "100.5", "Income", "x"]] ∧
    (some [COLUMNS, ["05-01-2024", "100.5", "Income", "x"]] : Option File)
      ≠ some exTrailingZero :=
  ⟨by decide, by decide, rfl, by decide⟩

end FinTrack
